import Mathlib

/-!
Shallow embedding of the napcat auto-like plugin (State Store in
`src/types.ts` / `core/state.ts`, Gesture Handler `handleLike`).

JavaScript values appearing in configuration files are modelled by the
inductive `JValue` (numbers as `Int`: every numeric operation the plugin
performs on them — equality, comparison, parseInt, increment — is integral).
Remote calls are modelled by an oracle record `Remote` supplying each call's
outcome, and the handler returns the ordered trace of calls it issued
alongside the updated in-memory state.
-/

namespace NapcatAutoLike

/-- A JSON-like JavaScript value (TS `unknown` after `JSON.parse`). -/
inductive JValue where
  | jnull
  | jbool (b : Bool)
  | jnum (n : Int)
  | jstr (s : String)
  | jarr (xs : List JValue)
  | jobj (fields : List (String × JValue))
deriving Inhabited

/-- Property access `raw.k` on an object: JSON.parse keeps the last duplicate
key, so the lookup folds left taking the latest binding. `none` models
`undefined` (absent key). -/
def jget (fields : List (String × JValue)) (k : String) : Option JValue :=
  fields.foldl (fun acc kv => if kv.1 = k then some kv.2 else acc) none

/-- The plugin configuration record (`PluginConfig` plus the auto-like-someone
fields that `sanitizeConfig` and the State Store populate). -/
structure PluginConfig where
  enabled : Bool
  debug : Bool
  autoLikeEnabled : Bool
  blacklist : List Int
  vipLikeLimit : Int
  autoLikeSomeoneEnabled : Bool
  autoLikeInterval : Int
  autoLikeTimes : Int
  autoLikeUsers : List Int
deriving Repr, DecidableEq, Inhabited

/-- Modelled from the spec: `DEFAULT_CONFIG` is imported from `../config`,
a file not present in the sources; the spec only states that each field has a
documented default of the declared type. None of the theorems below depend on
the particular default values, only on their types. -/
def DEFAULT_CONFIG : PluginConfig :=
  { enabled := true
    debug := false
    autoLikeEnabled := false
    blacklist := []
    vipLikeLimit := 5
    autoLikeSomeoneEnabled := false
    autoLikeInterval := 60
    autoLikeTimes := 10
    autoLikeUsers := [] }

/-- JS whitespace test for `String.prototype.trim` purposes (space, tab,
newline, carriage return, form feed, vertical tab). -/
def isWs (c : Char) : Bool :=
  c = ' ' || c = '\t' || c = '\n' || c = '\r' || c = '\x0c' || c = '\x0b'

/-- Both-ends whitespace trim on a character list (JS `s.trim()`). -/
def trimChars (l : List Char) : List Char :=
  ((l.dropWhile isWs).reverse.dropWhile isWs).reverse

/-- Longest prefix of decimal digits. -/
def digitsPrefix : List Char → List Char
  | [] => []
  | c :: cs => if c.isDigit then c :: digitsPrefix cs else []

/-- Numeric value of a decimal digit string. -/
def digitsToNat (ds : List Char) : Nat :=
  ds.foldl (fun acc c => acc * 10 + (c.toNat - 48)) 0

/-- Sign split: leading `+` or `-`. -/
def signSplit : List Char → Int × List Char
  | '+' :: cs => (1, cs)
  | '-' :: cs => (-1, cs)
  | cs => (1, cs)

/-- JS `parseInt(s.trim(), 10)` (equally `parseInt(s, 10)`, which trims
itself): optional sign then the longest decimal-digit prefix; `none` models
`NaN` (no digit found). -/
def parseIntB10 (s : String) : Option Int :=
  let t := trimChars s.data
  let sr := signSplit t
  let ds := digitsPrefix sr.2
  if ds.isEmpty then none else some (sr.1 * (digitsToNat ds : Int))

/-- Hex digit value, `none` for a non-hex-digit. -/
def hexVal (c : Char) : Option Nat :=
  if '0' ≤ c ∧ c ≤ '9' then some (c.toNat - 48)
  else if 'a' ≤ c ∧ c ≤ 'f' then some (c.toNat - 87)
  else if 'A' ≤ c ∧ c ≤ 'F' then some (c.toNat - 55)
  else none

/-- Longest prefix of hex digits. -/
def hexPrefix : List Char → List Nat
  | [] => []
  | c :: cs =>
    match hexVal c with
    | some v => v :: hexPrefix cs
    | none => []

/-- JS `parseInt(s)` with no radix argument (used on `selfId`): after trim and
sign, a `0x`/`0X` prefix switches to base 16, otherwise base 10. -/
def parseIntJS (s : String) : Option Int :=
  let t := trimChars s.data
  let sr := signSplit t
  match sr.2 with
  | '0' :: 'x' :: rest =>
    let ds := hexPrefix rest
    if ds.isEmpty then none
    else some (sr.1 * (ds.foldl (fun acc v => acc * 16 + v) 0 : Int))
  | '0' :: 'X' :: rest =>
    let ds := hexPrefix rest
    if ds.isEmpty then none
    else some (sr.1 * (ds.foldl (fun acc v => acc * 16 + v) 0 : Int))
  | cs =>
    let ds := digitsPrefix cs
    if ds.isEmpty then none else some (sr.1 * (digitsToNat ds : Int))

/-- JS `s.split(',')` on character lists: accumulate the current token,
emitting it at each comma; the trailing token is always emitted (so the empty
string splits to one empty token). -/
def splitCommaAux : List Char → List Char → List (List Char)
  | [], acc => [acc.reverse]
  | c :: cs, acc =>
    if c = ',' then acc.reverse :: splitCommaAux cs [] else splitCommaAux cs (c :: acc)

/-- JS `s.split(',')`. -/
def splitComma (s : String) : List String :=
  (splitCommaAux s.data []).map String.mk

/-- The UI string-list normalization used for `blacklist` / `autoLikeUsers`:
`str.split(',').map(s => parseInt(s.trim(), 10)).filter(n => !isNaN(n))`. -/
def parseNumList (s : String) : List Int :=
  ((splitComma s).map parseIntB10).filterMap id

/-- `arr.filter((id): id is number => typeof id === 'number')` on a JS array:
keep exactly the number-typed elements. -/
def filterNums (xs : List JValue) : List Int :=
  xs.filterMap fun j => match j with | .jnum n => some n | _ => none

/-- `sanitizeConfig` from `core/state.ts`: non-objects map to the default
config; each recognized field overrides its default only when it has the
declared type, with the two list fields also accepting a comma-separated
string form. -/
def sanitizeConfig (raw : JValue) : PluginConfig :=
  match raw with
  | .jobj fields =>
    let out := DEFAULT_CONFIG
    let out := match jget fields "enabled" with
      | some (.jbool b) => { out with enabled := b } | _ => out
    let out := match jget fields "debug" with
      | some (.jbool b) => { out with debug := b } | _ => out
    let out := match jget fields "autoLikeEnabled" with
      | some (.jbool b) => { out with autoLikeEnabled := b } | _ => out
    let out := match jget fields "vipLikeLimit" with
      | some (.jnum n) => { out with vipLikeLimit := n } | _ => out
    let out := match jget fields "blacklist" with
      | some (.jarr xs) => { out with blacklist := filterNums xs }
      | some (.jstr s) => { out with blacklist := parseNumList s }
      | _ => out
    let out := match jget fields "autoLikeSomeoneEnabled" with
      | some (.jbool b) => { out with autoLikeSomeoneEnabled := b } | _ => out
    let out := match jget fields "autoLikeInterval" with
      | some (.jnum n) => { out with autoLikeInterval := n } | _ => out
    let out := match jget fields "autoLikeTimes" with
      | some (.jnum n) => { out with autoLikeTimes := n } | _ => out
    let out := match jget fields "autoLikeUsers" with
      | some (.jarr xs) => { out with autoLikeUsers := filterNums xs }
      | some (.jstr s) => { out with autoLikeUsers := parseNumList s }
      | _ => out
    out
  | _ => DEFAULT_CONFIG

/-- Serialization of a `PluginConfig` back to a JS object, as
`JSON.parse(JSON.stringify(config))` would produce it (field order as
declared; lists as arrays of numbers). -/
def configToJson (c : PluginConfig) : JValue :=
  .jobj
    [ ("enabled", .jbool c.enabled)
    , ("debug", .jbool c.debug)
    , ("autoLikeEnabled", .jbool c.autoLikeEnabled)
    , ("blacklist", .jarr (c.blacklist.map .jnum))
    , ("vipLikeLimit", .jnum c.vipLikeLimit)
    , ("autoLikeSomeoneEnabled", .jbool c.autoLikeSomeoneEnabled)
    , ("autoLikeInterval", .jnum c.autoLikeInterval)
    , ("autoLikeTimes", .jnum c.autoLikeTimes)
    , ("autoLikeUsers", .jarr (c.autoLikeUsers.map .jnum)) ]

/-- Runtime statistics (`stats` field of the State Store; the day marker is
the `toDateString()` string). -/
structure Stats where
  processed : Nat
  todayProcessed : Nat
  lastUpdateDay : String
deriving Repr, DecidableEq, Inhabited

/-- In-memory state of the State Store relevant to the decision logic
(`config`, `selfId`, `stats`, the VIP like counters and their reset-day
marker). `vipLikeCounts` models the JS `Record<number, number>` as an
association list (insertion order, unique keys as JS objects keep). -/
structure PState where
  config : PluginConfig
  selfId : String
  stats : Stats
  vipLikeCounts : List (Int × Nat)
  lastVipLikeResetDay : String
deriving Repr, DecidableEq, Inhabited

/-- `this.vipLikeCounts[userId] || 0`. -/
def lookupCount (m : List (Int × Nat)) (uid : Int) : Nat :=
  match m.find? (fun p => p.1 = uid) with
  | some p => p.2
  | none => 0

/-- JS object assignment `this.vipLikeCounts[userId] = v`: overwrite in place
when the key exists, append otherwise. -/
def setCount (m : List (Int × Nat)) (uid : Int) (v : Nat) : List (Int × Nat) :=
  if m.any (fun p => p.1 = uid) then
    m.map (fun p => if p.1 = uid then (uid, v) else p)
  else m ++ [(uid, v)]

/-- `checkVipLikeReset`: when the stored reset day differs from today, clear
the counters and move the marker (the accompanying file write has no
in-memory effect). -/
def checkVipLikeReset (s : PState) (today : String) : PState :=
  if s.lastVipLikeResetDay ≠ today then
    { s with vipLikeCounts := [], lastVipLikeResetDay := today }
  else s

/-- `getVipLikeCount`: rollover first, then read with default 0. Returns the
possibly-updated state along with the count. -/
def getVipLikeCount (s : PState) (today : String) (uid : Int) : PState × Nat :=
  let s1 := checkVipLikeReset s today
  (s1, lookupCount s1.vipLikeCounts uid)

/-- `incrementVipLikeCount`: rollover first, then add one to the user's
count (writing the counter file, which has no in-memory effect). -/
def incrementVipLikeCount (s : PState) (today : String) (uid : Int) : PState :=
  let s1 := checkVipLikeReset s today
  { s1 with vipLikeCounts := setCount s1.vipLikeCounts uid (lookupCount s1.vipLikeCounts uid + 1) }

/-- `incrementProcessed`: day rollover on `stats`, then bump both counters. -/
def incrementProcessed (st : Stats) (today : String) : Stats :=
  let st1 :=
    if st.lastUpdateDay ≠ today then
      { st with todayProcessed := 0, lastUpdateDay := today }
    else st
  { st1 with todayProcessed := st1.todayProcessed + 1, processed := st1.processed + 1 }

/-- A remote call issued through `callApi`, with the parameters the plugin
passes (and the explicit 1-second sleep of the proactive-like loop, so traces
record the inter-target delay). -/
inductive Call where
  | getFriendList
  | getStrangerInfo (user_id : Int)
  | friendPoke (user_id : Int)
  | groupPoke (group_id : Int) (user_id : Int)
  | sendLike (user_id : String) (times : Int)
  | sleep (ms : Nat)
deriving Repr, DecidableEq, Inhabited

/-- Whether a call is one of the two reciprocation actions. -/
def Call.isReciprocation : Call → Bool
  | .friendPoke _ => true
  | .groupPoke _ _ => true
  | _ => false

/-- One inbound gesture notification, the two shapes of the `LikeEvent`
union (`thumb_up` with optional `count`; `notify`/`poke` with optional
`group_id`). -/
inductive LikeEvent where
  | thumbUp (user_id : Int) (target_id : Int) (count : Option Int)
  | poke (user_id : Int) (target_id : Int) (group_id : Option Int)
deriving Repr, DecidableEq, Inhabited

/-- `event.user_id`. -/
def LikeEvent.userId : LikeEvent → Int
  | .thumbUp u _ _ => u
  | .poke u _ _ => u

/-- `event.target_id`. -/
def LikeEvent.targetId : LikeEvent → Int
  | .thumbUp _ t _ => t
  | .poke _ t _ => t

/-- Oracle for the remote calls one `handleLike` invocation makes:
`get_friend_list` yields the friend `user_id` list or throws;
`get_stranger_info` yields the truthiness of `data.vip` (the code's
`data.vip || false`) or throws; the reciprocation poke succeeds or throws.
`Unit` errors: the error object only reaches the logger. -/
structure Remote where
  friendList : Except Unit (List Int)
  strangerVip : Except Unit Bool
  pokeOk : Except Unit Unit
deriving Repr, Inhabited

/-- The reciprocation call `handleLike` issues at step 7: `thumb_up` pokes
back privately; a poke pokes back in the group only when `event.group_id` is
truthy (present and nonzero), else privately. -/
def pokeCallFor : LikeEvent → Call
  | .thumbUp u _ _ => .friendPoke u
  | .poke u _ gid =>
    match gid with
    | some g => if g ≠ 0 then .groupPoke g u else .friendPoke u
    | none => .friendPoke u

/-- Step 7 and 8 of the pipeline: issue the poke; on success increment the
acting user's VIP-like counter, on failure log and stop. `tr` is the trace
accumulated so far. -/
def reciprocate (s : PState) (today : String) (r : Remote) (ev : LikeEvent)
    (tr : List Call) : PState × List Call :=
  match r.pokeOk with
  | .error _ => (s, tr ++ [pokeCallFor ev])
  | .ok _ => (incrementVipLikeCount s today ev.userId, tr ++ [pokeCallFor ev])

/-- `handleLike` from the Gesture Handler, as a function of the in-memory
state, the current day string, the remote oracle and the event; returns the
final state and the ordered trace of remote calls issued. The
classification gate (step 1) is the `LikeEvent` type itself; `target_id` is
compared against `parseInt(selfId)` with no radix (a `NaN` result matches
nothing). -/
def handleLike (s : PState) (today : String) (r : Remote) (ev : LikeEvent) :
    PState × List Call :=
  match parseIntJS s.selfId with
  | none => (s, [])
  | some selfNum =>
    if ev.targetId ≠ selfNum then (s, [])
    else if s.config.autoLikeEnabled = false then (s, [])
    else if s.config.blacklist.contains ev.userId then (s, [])
    else
      match r.friendList with
      | .error _ => (s, [.getFriendList])
      | .ok friends =>
        if friends.contains ev.userId = false then (s, [.getFriendList])
        else
          let tr := [Call.getFriendList, Call.getStrangerInfo ev.userId]
          match r.strangerVip with
          | .error _ => reciprocate s today r ev tr
          | .ok vip =>
            if vip then
              let p := getVipLikeCount s today ev.userId
              if (p.2 : Int) ≥ p.1.config.vipLikeLimit then (p.1, tr)
              else reciprocate p.1 today r ev tr
            else reciprocate s today r ev tr

/-- Prefix test on character lists. -/
def isPrefixChars : List Char → List Char → Bool
  | [], _ => true
  | _ :: _, [] => false
  | a :: as, b :: bs => a = b && isPrefixChars as bs

/-- Contiguous-substring test on character lists. -/
def isInfixChars (pat : List Char) : List Char → Bool
  | [] => pat.isEmpty
  | c :: rest => isPrefixChars pat (c :: rest) || isInfixChars pat rest

/-- JS `errMsg.includes('No data returned')`: substring containment. -/
def containsSub (s pat : String) : Bool :=
  isInfixChars pat.data s.data

/-- One pass of the proactive-like loop body over the target list: each
target gets one `send_like` call with the stringified id and the configured
strength; success increments the processed counters and sleeps one second;
a failure whose message contains `No data returned` is treated as success
(increment, but the sleep in the `try` block is skipped); any other failure
is logged and the loop continues. -/
def autoLikeLoop (times : Int) (today : String)
    (result : Int → Except String Unit) (st : PState) :
    List Int → PState × List Call
  | [] => (st, [])
  | uid :: rest =>
    let this : List Call × PState :=
      match result uid with
      | .ok _ =>
        ([Call.sendLike (toString uid) times, Call.sleep 1000],
         { st with stats := incrementProcessed st.stats today })
      | .error msg =>
        if containsSub msg "No data returned" then
          ([Call.sendLike (toString uid) times],
           { st with stats := incrementProcessed st.stats today })
        else
          ([Call.sendLike (toString uid) times], st)
    let res := autoLikeLoop times today result this.2 rest
    (res.1, this.1 ++ res.2)

/-- `executeAutoLike`: early return when the feature is off or the target
list is empty, else one sequential pass over `autoLikeUsers`. `result`
gives each target's `send_like` outcome (`Except String Unit`: the error
carries `error.message`). -/
def executeAutoLike (s : PState) (today : String)
    (result : Int → Except String Unit) : PState × List Call :=
  if s.config.autoLikeSomeoneEnabled = false ∨ s.config.autoLikeUsers.isEmpty then
    (s, [])
  else
    autoLikeLoop s.config.autoLikeTimes today result s s.config.autoLikeUsers

/-- Projection of the `send_like` calls out of a trace. -/
def sendLikeOf : Call → Option (String × Int)
  | .sendLike u t => some (u, t)
  | _ => none

/-- The runtime context as far as uninitialized-access behaviour is
concerned. -/
structure Ctx where
  configPath : String
  dataPath : String
deriving Repr, DecidableEq, Inhabited

/-- The `ctx` getter: throws the uninitialized error when `_ctx` is null. -/
def ctxGet (c : Option Ctx) : Except String Ctx :=
  match c with
  | none => .error "PluginState has not been initialized, call init() first"
  | some v => .ok v

/-- Outcome of one `saveConfig` call. -/
inductive SaveOutcome where
  | skipped
  | wrote
deriving Repr, DecidableEq, Inhabited

/-- `saveConfig`: `if (!this._ctx) return;` — with no context it returns
silently (no write, no error); with a context it writes the config file. -/
def saveConfig (c : Option Ctx) : Except String SaveOutcome :=
  match c with
  | none => .ok .skipped
  | some _ => .ok .wrote

/-- `getDataFilePath`, which reads `this.ctx.dataPath` through the getter and
therefore throws when uninitialized. -/
def getDataFilePath (c : Option Ctx) (filename : String) : Except String String :=
  match ctxGet c with
  | .error e => .error e
  | .ok v => .ok (v.dataPath ++ "/" ++ filename)

/-! Helper lemmas. -/

theorem filterNums_map_jnum (l : List Int) : filterNums (l.map JValue.jnum) = l := by
  induction l with
  | nil => rfl
  | cons a t ih => simpa [filterNums, List.filterMap_cons] using ih

theorem sanitize_configToJson (c : PluginConfig) :
    sanitizeConfig (configToJson c) = c := by
  cases c
  simp [configToJson, sanitizeConfig, jget, filterNums_map_jnum]

theorem checkVipLikeReset_config (s : PState) (today : String) :
    (checkVipLikeReset s today).config = s.config := by
  unfold checkVipLikeReset; split <;> rfl

theorem checkVipLikeReset_idem (s : PState) (today : String) :
    checkVipLikeReset (checkVipLikeReset s today) today = checkVipLikeReset s today := by
  unfold checkVipLikeReset
  split <;> simp

theorem lookupCount_setCount (m : List (Int × Nat)) (uid : Int) (v : Nat) :
    lookupCount (setCount m uid v) uid = v := by
  induction m with
  | nil => simp [setCount, lookupCount]
  | cons p t ih =>
    by_cases hp : p.1 = uid
    · simp [setCount, lookupCount, List.any_cons, hp, List.find?]
    · by_cases ht : t.any (fun q => q.1 = uid)
      · simpa [setCount, lookupCount, List.any_cons, hp, ht, List.find?] using ih
      · simpa [setCount, lookupCount, List.any_cons, hp, ht, List.find?] using ih

theorem incrementVipLikeCount_lookup (s : PState) (today : String) (uid : Int) :
    lookupCount (incrementVipLikeCount s today uid).vipLikeCounts uid =
      (getVipLikeCount s today uid).2 + 1 := by
  simp [incrementVipLikeCount, getVipLikeCount, lookupCount_setCount]

theorem incrementProcessed_processed (st : Stats) (today : String) :
    (incrementProcessed st today).processed = st.processed + 1 := by
  unfold incrementProcessed; split <;> rfl

theorem getVipLikeCount_fst_config (s : PState) (today : String) (uid : Int) :
    (getVipLikeCount s today uid).1.config = s.config := by
  simp [getVipLikeCount, checkVipLikeReset_config]

theorem getVipLikeCount_rollover_snd (s : PState) (today : String) (uid : Int) :
    (getVipLikeCount (checkVipLikeReset s today) today uid).2 =
      (getVipLikeCount s today uid).2 := by
  simp [getVipLikeCount, checkVipLikeReset_idem]

theorem isReciprocation_getFriendList :
    Call.isReciprocation Call.getFriendList = false := rfl

theorem isReciprocation_getStrangerInfo (u : Int) :
    Call.isReciprocation (Call.getStrangerInfo u) = false := rfl

theorem pokeCallFor_isReciprocation (ev : LikeEvent) :
    (pokeCallFor ev).isReciprocation = true := by
  cases ev with
  | thumbUp u t c => rfl
  | poke u t gid =>
    cases gid with
    | none => rfl
    | some g =>
      by_cases hg : g ≠ 0 <;> simp [pokeCallFor, hg, Call.isReciprocation]

/-- Reduction of `handleLike` once the target, feature, blacklist and
friendship gates all pass: the rest of the pipeline is the stranger-info
match. -/
theorem handleLike_gates (s : PState) (today : String) (r : Remote)
    (ev : LikeEvent) (fl : List Int)
    (hp : parseIntJS s.selfId = some ev.targetId)
    (hen : s.config.autoLikeEnabled = true)
    (hbl : s.config.blacklist.contains ev.userId = false)
    (hfl : r.friendList = .ok fl)
    (hmem : fl.contains ev.userId = true) :
    handleLike s today r ev =
      (match r.strangerVip with
       | .error _ =>
         reciprocate s today r ev [Call.getFriendList, Call.getStrangerInfo ev.userId]
       | .ok vip =>
         if vip then
           (if ((getVipLikeCount s today ev.userId).2 : Int) ≥ s.config.vipLikeLimit then
              ((getVipLikeCount s today ev.userId).1,
               [Call.getFriendList, Call.getStrangerInfo ev.userId])
            else
              reciprocate (getVipLikeCount s today ev.userId).1 today r ev
                [Call.getFriendList, Call.getStrangerInfo ev.userId])
         else
           reciprocate s today r ev [Call.getFriendList, Call.getStrangerInfo ev.userId]) := by
  unfold handleLike
  rw [hp]
  simp only [hen, hbl, hfl, hmem, getVipLikeCount_fst_config, ne_eq, not_true_eq_false,
    if_false, Bool.false_eq_true, ite_false, ite_true]
  simp

/-- Behaviour of the reciprocation step: the poke call is appended to the
trace in either outcome; the counter increments exactly on success. -/
theorem reciprocate_spec (s : PState) (today : String) (r : Remote)
    (ev : LikeEvent) (tr : List Call) :
    (reciprocate s today r ev tr).2 = tr ++ [pokeCallFor ev] ∧
    (r.pokeOk = .ok () →
      (reciprocate s today r ev tr).1 = incrementVipLikeCount s today ev.userId) ∧
    (r.pokeOk = .error () → (reciprocate s today r ev tr).1 = s) := by
  cases hpk : r.pokeOk <;> simp [reciprocate, hpk]

/-! Concrete fixtures used by the witnesses. -/

/-- Sample configuration: reciprocation enabled, VIP limit 2, user 7
blacklisted. -/
def exConfig : PluginConfig :=
  { DEFAULT_CONFIG with autoLikeEnabled := true, vipLikeLimit := 2, blacklist := [7] }

/-- Sample in-memory state on day `"d"` with user 100 already at 2 VIP
likes. -/
def exState : PState :=
  { config := exConfig
    selfId := "10"
    stats := { processed := 4, todayProcessed := 1, lastUpdateDay := "d" }
    vipLikeCounts := [(100, 2)]
    lastVipLikeResetDay := "d" }

/-- Sample oracle: users 100 and 200 are friends, the stranger lookup says
VIP, the poke succeeds. -/
def exRemote : Remote :=
  { friendList := .ok [100, 200], strangerVip := .ok true, pokeOk := .ok () }

/-- Sample oracle like `exRemote` but with the stranger lookup reporting not
VIP. -/
def exRemoteNotVip : Remote :=
  { friendList := .ok [100, 200], strangerVip := .ok false, pokeOk := .ok () }

/-- `exState` with the proactive-like job enabled for targets 1 and 2 at
strength 5. -/
def exAutoState : PState :=
  { exState with
    config :=
      { exConfig with
        autoLikeSomeoneEnabled := true
        autoLikeUsers := [1, 2]
        autoLikeTimes := 5 } }

/-- `exAutoState` with a third target. -/
def exAutoState3 : PState :=
  { exAutoState with
    config := { exAutoState.config with autoLikeUsers := [1, 2, 3] } }

/-- Mixed `send_like` outcomes: target 1 hits the `No data returned` quirk,
target 2 fails for real, target 3 succeeds. -/
def exMixedResult : Int → Except String Unit := fun u =>
  if u = 1 then .error "Error: No data returned from API"
  else if u = 2 then .error "boom"
  else .ok ()

/-- Stale stats fixture (yesterday was `"d0"`). -/
def staleStats : Stats := { processed := 4, todayProcessed := 3, lastUpdateDay := "d0" }

/-- Stale-day variant of `exState`. -/
def staleState : PState := { exState with lastVipLikeResetDay := "d0" }

/-! Claim theorems. -/

/-- Claim C5: sanitizing is idempotent — re-sanitizing the JSON serialization
of a sanitized configuration returns it unchanged — every output field has
its declared type (enforced by the `PluginConfig` result type of
`sanitizeConfig`), and a comma-separated string input for the two list
fields is normalized by `parseNumList`, i.e. `parseInt` per token with
unparsable (`NaN`) tokens discarded. -/
theorem sanitize_idempotent :
    (∀ raw : JValue,
      sanitizeConfig (configToJson (sanitizeConfig raw)) = sanitizeConfig raw) ∧
    (∀ s : String,
      (sanitizeConfig (.jobj [("blacklist", .jstr s)])).blacklist = parseNumList s) ∧
    (∀ s : String,
      (sanitizeConfig (.jobj [("autoLikeUsers", .jstr s)])).autoLikeUsers = parseNumList s) :=
  ⟨fun _ => sanitize_configToJson _, fun _ => rfl, fun _ => rfl⟩

/-- Claim C4: on a stale day marker, `incrementProcessed` resets
`todayProcessed` and moves the marker before counting (so the result is
exactly lifetime+1 / today 1 / marker updated), `getVipLikeCount` returns 0
with the reset-day marker updated, and `incrementVipLikeCount` yields a
count of 1 with the marker updated — a stale-day counter is neither returned
nor incremented. -/
theorem day_rollover (st : Stats) (s : PState) (today : String) (uid : Int)
    (h1 : st.lastUpdateDay ≠ today) (h2 : s.lastVipLikeResetDay ≠ today) :
    incrementProcessed st today =
      { processed := st.processed + 1, todayProcessed := 1, lastUpdateDay := today } ∧
    (getVipLikeCount s today uid).2 = 0 ∧
    (getVipLikeCount s today uid).1.lastVipLikeResetDay = today ∧
    lookupCount (incrementVipLikeCount s today uid).vipLikeCounts uid = 1 ∧
    (incrementVipLikeCount s today uid).lastVipLikeResetDay = today := by
  refine ⟨?_, ?_, ?_, ?_, ?_⟩ <;>
    simp [incrementProcessed, getVipLikeCount, incrementVipLikeCount,
      checkVipLikeReset, lookupCount, setCount, h1, h2]

/-- Witness for `day_rollover` at stale fixtures on day `"d1"`. -/
theorem day_rollover_witness :
    incrementProcessed staleStats "d1" =
      { processed := staleStats.processed + 1, todayProcessed := 1, lastUpdateDay := "d1" } ∧
    (getVipLikeCount staleState "d1" 100).2 = 0 ∧
    (getVipLikeCount staleState "d1" 100).1.lastVipLikeResetDay = "d1" ∧
    lookupCount (incrementVipLikeCount staleState "d1" 100).vipLikeCounts 100 = 1 ∧
    (incrementVipLikeCount staleState "d1" 100).lastVipLikeResetDay = "d1" :=
  day_rollover staleStats staleState "d1" 100 (by decide) (by decide)

/-- Claim C6: a gesture from a blacklisted user leaves the handler before the
friendship check — the trace is empty (in particular `get_friend_list` is
never called, no reciprocation happens) and the state is untouched. -/
theorem blacklist_short_circuit (s : PState) (today : String) (r : Remote)
    (ev : LikeEvent) (h : s.config.blacklist.contains ev.userId = true) :
    handleLike s today r ev = (s, []) := by
  unfold handleLike
  cases hp : parseIntJS s.selfId with
  | none => rfl
  | some n =>
    simp only
    split_ifs <;> rfl

/-- Witness for `blacklist_short_circuit`: blacklisted user 7 pokes the
bot. -/
theorem blacklist_short_circuit_witness :
    handleLike exState "d" exRemote (.poke 7 10 (some 555)) = (exState, []) :=
  blacklist_short_circuit exState "d" exRemote (.poke 7 10 (some 555)) (by decide)

/-- Claim C7: a gesture whose `target_id` is not the parsed cached bot
identifier makes the handler return with no remote call and no state
change. -/
theorem target_mismatch_no_calls (s : PState) (today : String) (r : Remote)
    (ev : LikeEvent) (h : parseIntJS s.selfId ≠ some ev.targetId) :
    handleLike s today r ev = (s, []) := by
  unfold handleLike
  cases hp : parseIntJS s.selfId with
  | none => rfl
  | some n =>
    have hne : ev.targetId ≠ n := by
      intro he
      exact h (he ▸ hp)
    simp only
    rw [if_pos hne]

/-- Witness for `target_mismatch_no_calls`: a thumb-up aimed at user 11 while
the bot is 10. -/
theorem target_mismatch_no_calls_witness :
    handleLike exState "d" exRemote (.thumbUp 100 11 (some 3)) = (exState, []) :=
  target_mismatch_no_calls exState "d" exRemote (.thumbUp 100 11 (some 3)) (by decide)

/-- Claim C10: while `selfId` is still the empty string (the self-identifier
fetch has not succeeded), `parseInt` yields `NaN`, so the target check fails
for every gesture: the handler issues no remote call and performs no state
update. -/
theorem empty_selfId_no_calls (s : PState) (today : String) (r : Remote)
    (ev : LikeEvent) (h : s.selfId = "") :
    parseIntJS s.selfId = none ∧ handleLike s today r ev = (s, []) := by
  constructor
  · rw [h]; rfl
  · unfold handleLike
    rw [h]
    rfl

/-- Witness for `empty_selfId_no_calls`: a gesture genuinely aimed at the bot
account (10) is still dropped while `selfId` is empty. -/
theorem empty_selfId_no_calls_witness :
    parseIntJS ({ exState with selfId := "" } : PState).selfId = none ∧
    handleLike { exState with selfId := "" } "d" exRemote (.thumbUp 100 10 none) =
      ({ exState with selfId := "" }, []) :=
  empty_selfId_no_calls { exState with selfId := "" } "d" exRemote
    (.thumbUp 100 10 none) (by decide)

/-- Claim C1: for a gesture from a user the stranger lookup marks VIP, with
all earlier gates passing, a post-rollover counter at or above
`vipLikeLimit` stops the pipeline right after the stranger-info call — no
reciprocation call is issued and the final state is exactly the
post-rollover state (no counter increment) — while a counter equal to
`vipLikeLimit - 1` lets the pipeline proceed to a reciprocation call. -/
theorem vip_limit_enforcement (s : PState) (today : String) (r : Remote)
    (ev : LikeEvent) (fl : List Int)
    (hp : parseIntJS s.selfId = some ev.targetId)
    (hen : s.config.autoLikeEnabled = true)
    (hbl : s.config.blacklist.contains ev.userId = false)
    (hfl : r.friendList = .ok fl)
    (hmem : fl.contains ev.userId = true)
    (hvip : r.strangerVip = .ok true) :
    (((getVipLikeCount s today ev.userId).2 : Int) ≥ s.config.vipLikeLimit →
      handleLike s today r ev =
        ((getVipLikeCount s today ev.userId).1,
         [Call.getFriendList, Call.getStrangerInfo ev.userId])) ∧
    (((getVipLikeCount s today ev.userId).2 : Int) = s.config.vipLikeLimit - 1 →
      ((handleLike s today r ev).2.any Call.isReciprocation) = true) := by
  have hred := handleLike_gates s today r ev fl hp hen hbl hfl hmem
  rw [hvip] at hred
  simp only [ite_true] at hred
  constructor
  · intro hge
    rw [hred, if_pos hge]
  · intro heq
    have hnge : ¬ ((getVipLikeCount s today ev.userId).2 : Int) ≥ s.config.vipLikeLimit := by
      omega
    rw [hred, if_neg hnge]
    rcases reciprocate_spec (getVipLikeCount s today ev.userId).1 today r ev
      [Call.getFriendList, Call.getStrangerInfo ev.userId] with ⟨htr, -, -⟩
    rw [htr]
    simp [pokeCallFor_isReciprocation]

/-- Witness for `vip_limit_enforcement`: user 100 is VIP with counter 2 at
limit 2, so the pipeline stops after the stranger-info call; the
`vipLikeLimit - 1` premise is vacuous here. -/
theorem vip_limit_enforcement_witness :
    (((getVipLikeCount exState "d" 100).2 : Int) ≥ exState.config.vipLikeLimit →
      handleLike exState "d" exRemote (.thumbUp 100 10 none) =
        ((getVipLikeCount exState "d" 100).1,
         [Call.getFriendList, Call.getStrangerInfo 100])) ∧
    (((getVipLikeCount exState "d" 100).2 : Int) = exState.config.vipLikeLimit - 1 →
      ((handleLike exState "d" exRemote (.thumbUp 100 10 none)).2.any Call.isReciprocation) = true) :=
  vip_limit_enforcement exState "d" exRemote (.thumbUp 100 10 none) [100, 200]
    (by decide) (by decide) (by decide) rfl (by decide) rfl

/-- Claim C2 counterexample: a poke event that does carry a `group_id`, namely
`group_id = 0`, is reciprocated with a private `friend_poke`, not a
`group_poke` — `if (event.group_id)` is a truthiness test, and 0 is falsy. -/
theorem poke_group_id_zero_counterexample :
    (handleLike exState "d" exRemoteNotVip (.poke 200 10 (some 0))).2 =
      [Call.getFriendList, Call.getStrangerInfo 200, Call.friendPoke 200] ∧
    Call.groupPoke 0 200 ∉ (handleLike exState "d" exRemoteNotVip (.poke 200 10 (some 0))).2 := by
  decide

/-- Claim C2 (amended: a poke reciprocates in the group only for a nonzero
`group_id`; `group_id = 0` is falsy and poked back privately): when every
gate passes, the trace contains exactly one reciprocation call — private
`friend_poke` for a thumb-up, `group_poke` for a poke with nonzero group,
`friend_poke` for a poke without one — and the acting user's VIP-like
counter increments exactly when the poke succeeds, while a poke failure
leaves the state as it was (up to day rollover). -/
theorem reciprocation_behaviour (s : PState) (today : String) (r : Remote)
    (ev : LikeEvent) (fl : List Int)
    (hp : parseIntJS s.selfId = some ev.targetId)
    (hen : s.config.autoLikeEnabled = true)
    (hbl : s.config.blacklist.contains ev.userId = false)
    (hfl : r.friendList = .ok fl)
    (hmem : fl.contains ev.userId = true)
    (hvip : r.strangerVip = .error () ∨ r.strangerVip = .ok false ∨
      (r.strangerVip = .ok true ∧
        ((getVipLikeCount s today ev.userId).2 : Int) < s.config.vipLikeLimit)) :
    ((handleLike s today r ev).2.filter Call.isReciprocation =
      [match ev with
       | .thumbUp u _ _ => Call.friendPoke u
       | .poke u _ (some g) => if g ≠ 0 then Call.groupPoke g u else Call.friendPoke u
       | .poke u _ none => Call.friendPoke u]) ∧
    (r.pokeOk = .ok () →
      lookupCount (handleLike s today r ev).1.vipLikeCounts ev.userId =
        (getVipLikeCount s today ev.userId).2 + 1) ∧
    (r.pokeOk = .error () →
      ((handleLike s today r ev).1 = s ∨
       (handleLike s today r ev).1 = checkVipLikeReset s today)) := by
  have hmatch : (match ev with
       | .thumbUp u _ _ => Call.friendPoke u
       | .poke u _ (some g) => if g ≠ 0 then Call.groupPoke g u else Call.friendPoke u
       | .poke u _ none => Call.friendPoke u) = pokeCallFor ev := by
    cases ev with
    | thumbUp u t c => rfl
    | poke u t gid => cases gid <;> rfl
  have hred := handleLike_gates s today r ev fl hp hen hbl hfl hmem
  have main : handleLike s today r ev =
      reciprocate s today r ev [Call.getFriendList, Call.getStrangerInfo ev.userId] ∨
      handleLike s today r ev =
        reciprocate (getVipLikeCount s today ev.userId).1 today r ev
          [Call.getFriendList, Call.getStrangerInfo ev.userId] := by
    rcases hvip with hv | hv | ⟨hv, hlt⟩
    · rw [hv] at hred
      exact Or.inl hred
    · rw [hv] at hred
      simp only [Bool.false_eq_true, ite_false] at hred
      exact Or.inl hred
    · rw [hv] at hred
      simp only [ite_true] at hred
      rw [if_neg (not_le.mpr hlt)] at hred
      exact Or.inr hred
  rcases main with hm | hm <;>
    rw [hm] <;>
    refine ⟨?_, ?_, ?_⟩
  · rcases reciprocate_spec s today r ev
      [Call.getFriendList, Call.getStrangerInfo ev.userId] with ⟨htr, -, -⟩
    rw [htr, hmatch]
    simp [List.filter_append, isReciprocation_getFriendList, isReciprocation_getStrangerInfo,
      pokeCallFor_isReciprocation]
  · intro hpk
    rcases reciprocate_spec s today r ev
      [Call.getFriendList, Call.getStrangerInfo ev.userId] with ⟨-, hok, -⟩
    rw [hok hpk, incrementVipLikeCount_lookup]
  · intro hpk
    rcases reciprocate_spec s today r ev
      [Call.getFriendList, Call.getStrangerInfo ev.userId] with ⟨-, -, herr⟩
    exact Or.inl (herr hpk)
  · rcases reciprocate_spec (getVipLikeCount s today ev.userId).1 today r ev
      [Call.getFriendList, Call.getStrangerInfo ev.userId] with ⟨htr, -, -⟩
    rw [htr, hmatch]
    simp [List.filter_append, isReciprocation_getFriendList, isReciprocation_getStrangerInfo,
      pokeCallFor_isReciprocation]
  · intro hpk
    rcases reciprocate_spec (getVipLikeCount s today ev.userId).1 today r ev
      [Call.getFriendList, Call.getStrangerInfo ev.userId] with ⟨-, hok, -⟩
    rw [hok hpk]
    have : (getVipLikeCount s today ev.userId).1 = checkVipLikeReset s today := rfl
    rw [this, incrementVipLikeCount_lookup, getVipLikeCount_rollover_snd]
  · intro hpk
    rcases reciprocate_spec (getVipLikeCount s today ev.userId).1 today r ev
      [Call.getFriendList, Call.getStrangerInfo ev.userId] with ⟨-, -, herr⟩
    exact Or.inr (herr hpk)

/-- Witness for `reciprocation_behaviour`: a thumb-up from non-VIP friend 100
is poked back privately exactly once and the counter increments from the
successful poke. -/
theorem reciprocation_behaviour_witness :
    ((handleLike exState "d" exRemoteNotVip (.thumbUp 100 10 (some 3))).2.filter
        Call.isReciprocation = [Call.friendPoke 100]) ∧
    (exRemoteNotVip.pokeOk = .ok () →
      lookupCount (handleLike exState "d" exRemoteNotVip (.thumbUp 100 10 (some 3))).1.vipLikeCounts
          100 = (getVipLikeCount exState "d" 100).2 + 1) ∧
    (exRemoteNotVip.pokeOk = .error () →
      ((handleLike exState "d" exRemoteNotVip (.thumbUp 100 10 (some 3))).1 = exState ∨
       (handleLike exState "d" exRemoteNotVip (.thumbUp 100 10 (some 3))).1 =
         checkVipLikeReset exState "d")) :=
  reciprocation_behaviour exState "d" exRemoteNotVip (.thumbUp 100 10 (some 3)) [100, 200]
    (by decide) (by decide) (by decide) rfl (by decide) (Or.inr (Or.inl rfl))

/-- Claim C3: with the proactive-like feature on, targets `[1, 2]` and
strength 5 (and the stats day marker current, so no rollover interferes), one
full pass issues exactly two `send_like` calls with stringified ids and
`times := 5` in list order, separated by the 1-second delay, and adds 2 to
both `processed` and `todayProcessed`. -/
theorem proactive_like_pass (s : PState) (today : String)
    (h1 : s.config.autoLikeSomeoneEnabled = true)
    (h2 : s.config.autoLikeUsers = [1, 2])
    (h3 : s.config.autoLikeTimes = 5)
    (h4 : s.stats.lastUpdateDay = today) :
    executeAutoLike s today (fun _ => .ok ()) =
      ({ s with stats := { s.stats with
            processed := s.stats.processed + 2,
            todayProcessed := s.stats.todayProcessed + 2 } },
       [.sendLike "1" 5, .sleep 1000, .sendLike "2" 5, .sleep 1000]) := by
  have hmk : s.stats.lastUpdateDay ≠ today ↔ False := by simp [h4]
  simp [executeAutoLike, h1, h2, h3, autoLikeLoop, incrementProcessed, hmk]
  constructor
  · cases hs : s.stats
    simp_all
    rfl
  · constructor <;> rfl

/-- Witness for `proactive_like_pass` at a concrete state on day `"d"`. -/
theorem proactive_like_pass_witness :
    executeAutoLike exAutoState "d" (fun _ => .ok ()) =
      ({ exAutoState with stats := { exAutoState.stats with
            processed := exAutoState.stats.processed + 2,
            todayProcessed := exAutoState.stats.todayProcessed + 2 } },
       [.sendLike "1" 5, .sleep 1000, .sendLike "2" 5, .sleep 1000]) :=
  proactive_like_pass exAutoState "d" (by decide) (by decide) (by decide) (by decide)

/-- Classification of a `send_like` outcome the loop counts as success: a
genuine success, or a failure whose message contains the
`No data returned` signature. -/
def ndrTreatedOk (result : Int → Except String Unit) (uid : Int) : Bool :=
  match result uid with
  | .ok _ => true
  | .error m => containsSub m "No data returned"

theorem autoLikeLoop_spec (times : Int) (today : String)
    (result : Int → Except String Unit) :
    ∀ (l : List Int) (st : PState),
      (autoLikeLoop times today result st l).1.stats.processed =
        st.stats.processed + l.countP (ndrTreatedOk result) ∧
      (autoLikeLoop times today result st l).2.filterMap sendLikeOf =
        l.map (fun uid => (toString uid, times)) := by
  intro l
  induction l with
  | nil => intro st; simp [autoLikeLoop]
  | cons uid rest ih =>
    intro st
    cases hr : result uid with
    | ok u =>
      have h := ih { st with stats := incrementProcessed st.stats today }
      simp [autoLikeLoop, hr, ndrTreatedOk, List.countP_cons, sendLikeOf, h.1, h.2,
        incrementProcessed_processed]
      omega
    | error m =>
      by_cases hm : containsSub m "No data returned"
      · have h := ih { st with stats := incrementProcessed st.stats today }
        simp [autoLikeLoop, hr, hm, ndrTreatedOk, List.countP_cons, sendLikeOf, h.1, h.2,
          incrementProcessed_processed]
        omega
      · have h := ih st
        simp [autoLikeLoop, hr, hm, ndrTreatedOk, List.countP_cons, sendLikeOf, h.1, h.2]

/-- Claim C8: over one pass of the proactive-like loop, the lifetime
`processed` counter grows by exactly the number of targets whose call
succeeded or failed with the `No data returned` signature (so that quirk is
counted as success and any other failure is not), and every configured
target receives its `send_like` call — a per-target failure never aborts the
rest of the pass. -/
theorem auto_like_error_tolerance (s : PState) (today : String)
    (result : Int → Except String Unit)
    (h : s.config.autoLikeSomeoneEnabled = true) :
    (executeAutoLike s today result).1.stats.processed =
      s.stats.processed + s.config.autoLikeUsers.countP (ndrTreatedOk result) ∧
    (executeAutoLike s today result).2.filterMap sendLikeOf =
      s.config.autoLikeUsers.map (fun uid => (toString uid, s.config.autoLikeTimes)) := by
  unfold executeAutoLike
  by_cases he : s.config.autoLikeUsers.isEmpty
  · have hnil : s.config.autoLikeUsers = [] := by
      cases hu : s.config.autoLikeUsers with
      | nil => rfl
      | cons a t => rw [hu] at he; simp [List.isEmpty] at he
    simp [h, he, hnil]
  · simp only [h, he, Bool.true_eq_false, false_or, or_self, ite_false, if_neg,
      Bool.false_eq_true]
    exact autoLikeLoop_spec s.config.autoLikeTimes today result s.config.autoLikeUsers s

/-- Witness for `auto_like_error_tolerance`: targets `[1, 2, 3]` where target
1 fails with the `No data returned` signature (counted), target 2 fails with
another message (not counted, loop continues) and target 3 succeeds. -/
theorem auto_like_error_tolerance_witness :
    (executeAutoLike exAutoState3 "d" exMixedResult).1.stats.processed =
      exAutoState3.stats.processed +
        exAutoState3.config.autoLikeUsers.countP (ndrTreatedOk exMixedResult) ∧
    (executeAutoLike exAutoState3 "d" exMixedResult).2.filterMap sendLikeOf =
      exAutoState3.config.autoLikeUsers.map
        (fun uid => (toString uid, exAutoState3.config.autoLikeTimes)) :=
  auto_like_error_tolerance exAutoState3 "d" exMixedResult (by decide)

/-- Claim C9 counterexample: `saveConfig` invoked with no context (before
`init`, or after `cleanup` released it) does not fail with the uninitialized
error — it returns silently, skipping the write. -/
theorem saveConfig_uninit_silent :
    saveConfig none = Except.ok SaveOutcome.skipped := rfl

/-- Claim C9 (amended: operations that reach the context through the `ctx`
getter fail with the uninitialized error before init or after cleanup, but
`saveConfig` is an exception — it checks `_ctx` itself and silently skips the
write instead of raising): the getter throws exactly when the context is
absent, getter-based operations propagate that error, and `saveConfig`
writes when a context exists and silently skips otherwise. -/
theorem uninit_access (f : String) :
    ctxGet none = .error "PluginState has not been initialized, call init() first" ∧
    getDataFilePath none f =
      .error "PluginState has not been initialized, call init() first" ∧
    saveConfig none = .ok .skipped ∧
    (∀ c, ctxGet (some c) = .ok c) ∧
    (∀ c, saveConfig (some c) = .ok .wrote) :=
  ⟨rfl, rfl, rfl, fun _ => rfl, fun _ => rfl⟩

end NapcatAutoLike
